import Mathlib

/-!
Shallow embedding of the request handlers in `src/handlers.ts` of the
Serverless country-list API.  The DynamoDB `CountriesTable` is modelled as a
list of country records keyed by `countryID`, and the
`CountryNeighborsTable` as a list of `(countryID, neighborId)` pairs keyed by
that pair.  Each handler becomes a pure function from the store state (and
the already-parsed request data) to a result plus the new store state.
Timestamps (`created_at` / `updated_at`) are pass-through payload data that no
handler logic inspects or rewrites, so they are not modelled.
-/

namespace CountryApi

/-- A country record as stored in `CountriesTable`.  `countryID` is the
partition key; the remaining fields are the payload fields the handlers
read (`name`, `region`, `subregion` for search, `population` and `area` for
sorting, the rest for the denormalized neighbor projection). -/
structure Country where
  countryID : String
  name : String
  description : String
  currency : String
  capital : String
  region : String
  subregion : String
  area : Int
  population : Int
  flag_url : String
deriving DecidableEq

/-- A validated record payload (the request body after the yup schema gate),
i.e. a country without the server-assigned `countryID`. -/
structure RecordInput where
  name : String
  description : String
  currency : String
  capital : String
  region : String
  subregion : String
  area : Int
  population : Int
  flag_url : String
deriving DecidableEq

/-- `{...reqBody, countryID: id}`: build the stored item from a payload and
an identifier. -/
def RecordInput.withId (r : RecordInput) (id : String) : Country :=
  { countryID := id, name := r.name, description := r.description,
    currency := r.currency, capital := r.capital, region := r.region,
    subregion := r.subregion, area := r.area, population := r.population,
    flag_url := r.flag_url }

/-- The two DynamoDB tables: `CountriesTable` (keyed by `countryID`) and
`CountryNeighborsTable` (keyed by the `(countryID, neighborId)` pair). -/
structure DBState where
  countries : List Country
  relations : List (String × String)
deriving DecidableEq

/-- `docClient.get` on `CountriesTable` (`fetchCountryById` in the source):
returns `output.Item`, i.e. the record with the given key if present.  Note
the source function never throws; absence is returned as `undefined`
(`none`), not raised as an `HttpError`. -/
def fetchCountryById (db : DBState) (id : String) : Option Country :=
  db.countries.find? (fun c => c.countryID == id)

/-- `docClient.put` on `CountriesTable`: upsert keyed by `countryID`. -/
def putCountry : List Country → Country → List Country
  | [], c => [c]
  | x :: xs, c => if x.countryID == c.countryID then c :: xs else x :: putCountry xs c

/-- `fetchAllCountryIds` in the source: scan of `CountriesTable` projecting
only the `countryID` attribute. -/
def fetchAllCountryIds (db : DBState) : List String :=
  db.countries.map (fun c => c.countryID)

/-- `fetchNeighbor` in the source: `docClient.get` on
`CountryNeighborsTable` with key `(countryID, neighborId)`. -/
def fetchNeighbor (rel : List (String × String)) (countryID neighborId : String) :
    Option (String × String) :=
  rel.find? (fun p => p.1 == countryID && p.2 == neighborId)

/-- `addNeighbor` in the source: `docClient.put` of the item
`{countryID, neighborId}` into `CountryNeighborsTable`.  DynamoDB `put`
replaces the item with the same key; since the item here consists exactly of
its key attributes, replacing an existing pair leaves the table unchanged,
and putting a fresh pair appends it. -/
def addNeighbor (rel : List (String × String)) (countryID neighborId : String) :
    List (String × String) :=
  if rel.any (fun p => p.1 == countryID && p.2 == neighborId) then rel
  else rel ++ [(countryID, neighborId)]

/-- `fetchNeighborsByCountryId` in the source: DynamoDB `query` on
`CountryNeighborsTable` with `countryID = :countryID`, projected to the
`neighborId` attribute of each matching item. -/
def fetchNeighborsByCountryId (db : DBState) (countryID : String) : List String :=
  (db.relations.filter (fun p => p.1 == countryID)).map (fun p => p.2)

/-- Error message pushed for a neighbor id absent from the country
collection. -/
def invalidNeighborMsg (neighborId : String) : String :=
  s!"Invalid neighbor country ID: {neighborId}"

/-- Error message pushed for an already-present `(countryID, neighborId)`
pair. -/
def duplicateNeighborMsg (neighborId : String) : String :=
  s!"Neighbor with ID {neighborId} already exists for this country"

/-- The `for (const neighborObj of neighborData)` loop of `addNeighbors`:
for each candidate id, in order, either push an error (invalid id, or pair
already present) or insert the pair and record the id as added.  Returns
`(successfulAdditions, errors, relations)`. -/
def addNeighborsLoop (countryID : String) (existingCountryIds : List String) :
    List String → List (String × String) → List String → List String →
    List String × List String × List (String × String)
  | [], rel, added, errors => (added, errors, rel)
  | neighborId :: rest, rel, added, errors =>
    if existingCountryIds.contains neighborId then
      match fetchNeighbor rel countryID neighborId with
      | some _ =>
        addNeighborsLoop countryID existingCountryIds rest rel added
          (errors ++ [duplicateNeighborMsg neighborId])
      | none =>
        addNeighborsLoop countryID existingCountryIds rest
          (addNeighbor rel countryID neighborId) (added ++ [neighborId]) errors
    else
      addNeighborsLoop countryID existingCountryIds rest rel added
        (errors ++ [invalidNeighborMsg neighborId])

/-- Response of the `addNeighbors` handler: status code, the
`data.neighbors` list of successfully added ids, and the `errors` list. -/
structure NeighborsResult where
  statusCode : Nat
  message : String
  neighbors : List String
  errors : List String
deriving DecidableEq

/-- The `addNeighbors` handler: 404 if the country is absent; otherwise run
the per-item loop against the scanned id set, then return 400 with the
errors and an empty added list when nothing was added, or 200 with both
lists when at least one addition succeeded.  `neighborIds` is the list of
`neighborId` fields of the parsed request body's `neighbors` array. -/
def addNeighbors (db : DBState) (countryID : String) (neighborIds : List String) :
    NeighborsResult × DBState :=
  match fetchCountryById db countryID with
  | none =>
    ({ statusCode := 404, message := "Country not found", neighbors := [], errors := [] }, db)
  | some _ =>
    let existingCountryIds := fetchAllCountryIds db
    let out := addNeighborsLoop countryID existingCountryIds neighborIds db.relations [] []
    if out.1.length = 0 then
      ({ statusCode := 400, message := "Failed to add neighbors",
         neighbors := [], errors := out.2.1 },
       { db with relations := out.2.2 })
    else
      ({ statusCode := 200, message := "Neighbors added successfully",
         neighbors := out.1, errors := out.2.1 },
       { db with relations := out.2.2 })

/-- Result of the `getCountry` handler: status code plus the JSON body,
which is `JSON.stringify` of whatever `fetchCountryById` returned (possibly
`undefined`, modelled as `none`). -/
structure GetResult where
  statusCode : Nat
  body : Option Country
deriving DecidableEq

/-- The `getCountry` handler.  The source wraps `fetchCountryById` in
`try/catch` with `handleError`, but `fetchCountryById` contains no `throw`
and simply returns `output.Item`; hence the catch branch (and in particular
the `HttpError` 404 path of `handleError`) is unreachable and the handler
always answers 200, serializing `undefined` when the record is absent. -/
def getCountry (db : DBState) (id : String) : GetResult :=
  { statusCode := 200, body := fetchCountryById db id }

/-- Result of the `updateCountry` handler. -/
structure UpdateResult where
  statusCode : Nat
  body : Country
deriving DecidableEq

/-- The `updateCountry` handler, on a payload that passed the yup schema
(`schema.validate`).  The source first awaits `fetchCountryById(id)` but
discards the result; since that function never throws, a missing id does
not interrupt the handler.  It then `put`s `{...reqBody, countryID: id}`
and answers 200 with the written item. -/
def updateCountry (db : DBState) (id : String) (patch : RecordInput) :
    UpdateResult × DBState :=
  let _ := fetchCountryById db id
  let country := patch.withId id
  ({ statusCode := 200, body := country },
   { db with countries := putCountry db.countries country })

/-- Result of the `deleteCountry` handler: status code and the (string)
body, which is empty on success. -/
structure DeleteResult where
  statusCode : Nat
  body : String
deriving DecidableEq

/-- The `deleteCountry` handler.  As with `updateCountry`, the initial
`fetchCountryById(id)` is awaited but cannot throw, so the handler always
proceeds to `docClient.delete` (removal of the keyed item, a no-op when
absent) and answers 204 with an empty body. -/
def deleteCountry (db : DBState) (id : String) : DeleteResult × DBState :=
  let _ := fetchCountryById db id
  ({ statusCode := 204, body := "" },
   { db with countries := db.countries.filter (fun c => c.countryID != id) })

/-- A parsed JSON request body for `createCountry`, as classified by
`Array.isArray`: either an array of (validated) record payloads or one of
the non-array JSON shapes. -/
inductive RequestBody where
  | arr (records : List RecordInput)
  | obj
  | str (s : String)
  | num (n : Int)
  | bool (b : Bool)
  | null
deriving DecidableEq

/-- `Array.isArray(requestBody)`. -/
def RequestBody.isArray : RequestBody → Bool
  | .arr _ => true
  | _ => false

/-- Result of the `createCountry` handler: status code, the created records
(body of the 201 response), and the message/error fields of the 500
response body. -/
structure CreateResult where
  statusCode : Nat
  countries : List Country
  message : Option String
  error : Option String
deriving DecidableEq

/-- The `createCountry` handler.  A non-array body throws
`Error("Request body should be an array of countries.")`, which the
handler's own catch-all turns into a 500 "Internal Server Error" response
carrying the error message; nothing is written.  An array body is mapped to
items with fresh `v4()` identifiers (modelled by the injective-by-position
generator `fresh`) and batch-written (per-item `put`), answering 201 with
the created records. -/
def createCountry (db : DBState) (body : RequestBody) (fresh : Nat → String) :
    CreateResult × DBState :=
  match body with
  | .arr records =>
    let countries := records.enum.map (fun ir => ir.2.withId (fresh ir.1))
    ({ statusCode := 201, countries := countries, message := none, error := none },
     { db with countries := countries.foldl putCountry db.countries })
  | _ =>
    ({ statusCode := 500, countries := [], message := some "Internal Server Error",
       error := some "Request body should be an array of countries." }, db)

/-! ### JavaScript numeric model for `getAllCountriesPaginated`

`parseInt` can yield `NaN`, which then flows through `skip`, `totalPages`,
`slice` and the `<`/`>` comparisons.  A JS number is modelled as
`Option Int`, with `none` standing for the non-finite results (`NaN`, and
`Infinity` from a zero divisor in `Math.ceil`); all inputs exercised here
are integral, so no fractional values arise outside the `ceil`. -/

/-- NaN-propagating subtraction. -/
def jsSub : Option Int → Option Int → Option Int
  | some a, some b => some (a - b)
  | _, _ => none

/-- NaN-propagating addition. -/
def jsAdd : Option Int → Option Int → Option Int
  | some a, some b => some (a + b)
  | _, _ => none

/-- NaN-propagating multiplication. -/
def jsMul : Option Int → Option Int → Option Int
  | some a, some b => some (a * b)
  | _, _ => none

/-- JS `<`: any comparison against `NaN` is false. -/
def jsLt : Option Int → Option Int → Bool
  | some a, some b => decide (a < b)
  | _, _ => false

/-- `Math.ceil(total / limit)` for a natural `total` (a list length) and a
JS-number `limit`: `NaN` stays `NaN`, a positive integer divisor gives the
ceiling of the division, and a non-positive divisor gives a non-finite or
non-positive-degenerate result collapsed to `none` (no code path in the
claims divides by a non-positive limit). -/
def jsCeilOfDiv (total : Nat) : Option Int → Option Int
  | none => none
  | some l => if l ≤ 0 then none else some (((total + l.toNat - 1) / l.toNat : Nat) : Int)

/-- ECMAScript `ToIntegerOrInfinity` on our numbers: `NaN` becomes 0. -/
def jsToIntOrZero : Option Int → Int
  | none => 0
  | some i => i

/-- Normalization of one `Array.prototype.slice` argument against the array
length: negative indices count from the end, then the result is clamped to
`[0, len]`. -/
def jsSliceIndex (len : Nat) (x : Option Int) : Nat :=
  let i := jsToIntOrZero x
  if i < 0 then len - min len i.natAbs else min i.toNat len

/-- `Array.prototype.slice(start, stop)` with JS-number arguments. -/
def jsSlice (l : List Country) (start stop : Option Int) : List Country :=
  (l.take (jsSliceIndex l.length stop)).drop (jsSliceIndex l.length start)

/-- Model of JavaScript `parseInt` on a decimal string: skip leading
whitespace, read an optional sign, then the longest run of decimal digits;
`NaN` (`none`) when that run is empty.  (Radix prefixes such as `0x` are
not modelled; no claim exercises them.) -/
def jsParseIntChars : List Char → Option Int
  | [] => none
  | c :: rest =>
    if c = ' ' ∨ c = '\t' ∨ c = '\n' ∨ c = '\r' then jsParseIntChars rest
    else
      let (sign, ds) : Int × List Char :=
        if c = '-' then (-1, rest)
        else if c = '+' then (1, rest)
        else (1, c :: rest)
      let digits := ds.takeWhile Char.isDigit
      if digits.isEmpty then none
      else some (sign * (digits.foldl (fun n d => n * 10 + (d.toNat - 48)) 0 : Nat))

/-- `parseInt(s)` on the string form. -/
def jsParseInt (s : String) : Option Int :=
  jsParseIntChars s.toList

/-! ### Sorting, search filtering and the page envelope -/

/-- Lexicographic three-way comparison of character lists by code point,
the semantics of JS `<` / `>` on string values. -/
def cmpCharList : List Char → List Char → Int
  | [], [] => 0
  | [], _ :: _ => -1
  | _ :: _, [] => 1
  | a :: as, b :: bs =>
    if a.toNat < b.toNat then -1
    else if b.toNat < a.toNat then 1
    else cmpCharList as bs

/-- Three-way comparison on strings, as JS `<` / `>` on string values
(lexicographic on code units; identical to code-point order on the
basic multilingual plane). -/
def cmpStr (x y : String) : Int :=
  cmpCharList x.toList y.toList

/-- Three-way comparison on numbers. -/
def cmpInt (x y : Int) : Int :=
  if x < y then -1 else if y < x then 1 else 0

/-- The comparator of the `output.Items.sort` call: the `switch` on
`sort_by` selects `sortKey` and `sortDirection`, and the comparator returns
`aValue < bValue ? -1*dir : aValue > bValue ? 1*dir : 0`.  Unrecognized
values fall through to name-ascending. -/
def countryComparator (sortBy : String) (a b : Country) : Int :=
  match sortBy with
  | "a_to_z" => 1 * cmpStr a.name b.name
  | "z_to_a" => -1 * cmpStr a.name b.name
  | "population_high_to_low" => -1 * cmpInt a.population b.population
  | "population_low_to_high" => 1 * cmpInt a.population b.population
  | "area_high_to_low" => -1 * cmpInt a.area b.area
  | "area_low_to_high" => 1 * cmpInt a.area b.area
  | _ => 1 * cmpStr a.name b.name

/-- Stable insertion of `a` into a sorted list under a three-way
comparator: `a` goes before the first element it compares strictly below,
hence after elements comparing equal (JS `Array.prototype.sort` is
specified stable). -/
def insertCmp (cmp : Country → Country → Int) (a : Country) :
    List Country → List Country
  | [] => [a]
  | b :: bs => if cmp a b < 0 then a :: b :: bs else b :: insertCmp cmp a bs

/-- Stable sort by a three-way comparator (insertion sort; for a consistent
comparator the stable sorted order is unique, so this agrees with the
engine's stable sort). -/
def sortCmp (cmp : Country → Country → Int) : List Country → List Country
  | [] => []
  | x :: xs => insertCmp cmp x (sortCmp cmp xs)

/-- Case-sensitive substring test, the semantics of the DynamoDB
`contains(attr, :search)` filter the handler installs (the handler passes
`new RegExp(search, "i").source`, i.e. the plain pattern string, so the
`i` flag never reaches the filter). -/
def strContains (hay pat : String) : Bool :=
  (List.range (hay.toList.length + 1)).any
    (fun i => pat.toList.isPrefixOf (hay.toList.drop i))

/-- The scan filter of `getAllCountriesPaginated`: when `search` is truthy
(present and non-empty), keep records whose `name`, `region` or `subregion`
contains the search text. -/
def searchFilter (items : List Country) : Option String → List Country
  | none => items
  | some s =>
    if s.isEmpty then items
    else items.filter (fun c =>
      strContains c.name s || strContains c.region s || strContains c.subregion s)

/-- The pagination envelope of the 200 response body (`data` field). -/
structure PageEnvelope where
  list : List Country
  has_next : Bool
  has_prev : Bool
  page : Option Int
  pages : Option Int
  per_page : Option Int
  total : Nat
deriving DecidableEq

/-- Lines 490-511 of the handler, applied to the sorted scan result and the
parsed `page` and `limit` numbers: `skip = (page-1)*limit`,
`totalPages = Math.ceil(total/limit)`, the slice
`Items.slice(skip, skip+limit)`, and the `hasNext`/`hasPrev` flags. -/
def paginateEnvelope (items : List Country) (pageN limitN : Option Int) : PageEnvelope :=
  let skip := jsMul (jsSub pageN (some 1)) limitN
  let total := items.length
  let pages := jsCeilOfDiv total limitN
  { list := jsSlice items skip (jsAdd skip limitN),
    has_next := jsLt pageN pages,
    has_prev := jsLt (some 1) pageN,
    page := pageN, pages := pages, per_page := limitN, total := total }

/-- Response of `getAllCountriesPaginated`: status code and the `data`
envelope. -/
structure PaginatedResult where
  statusCode : Nat
  data : PageEnvelope
deriving DecidableEq

/-- The `getAllCountriesPaginated` handler: destructure the query
parameters with defaults (`page="1"`, `limit="10"`, `sort_by="a_to_z"`),
scan with the optional search filter, sort with the comparator for
`sort_by`, then build the envelope.  No code path in the handler throws,
so it always answers 200; in particular a non-numeric `page` or `limit`
flows through as `NaN` instead of being rejected. -/
def getAllCountriesPaginated (db : DBState)
    (page? limit? sortBy? search? : Option String) : PaginatedResult :=
  let page := page?.getD "1"
  let limit := limit?.getD "10"
  let sortBy := sortBy?.getD "a_to_z"
  let items := searchFilter db.countries search?
  let sorted := sortCmp (countryComparator sortBy) items
  { statusCode := 200,
    data := paginateEnvelope sorted (jsParseInt page) (jsParseInt limit) }

/-! ### Concrete fixtures used by witnesses and counterexamples -/

/-- A concrete country record with identifier `"A"`. -/
def countryA : Country :=
  { countryID := "A", name := "Alpha", description := "first", currency := "EUR",
    capital := "Acity", region := "Europe", subregion := "West", area := 100,
    population := 50, flag_url := "a.png" }

/-- A concrete country record with identifier `"B"`. -/
def countryB : Country :=
  { countryID := "B", name := "Beta", description := "second", currency := "USD",
    capital := "Bcity", region := "Asia", subregion := "East", area := 200,
    population := 80, flag_url := "b.png" }

/-- A store holding the two demo countries and no relations. -/
def demoDB : DBState := { countries := [countryA, countryB], relations := [] }

/-- The empty store. -/
def emptyDB : DBState := { countries := [], relations := [] }

/-- A record with all-default fields, used to build bulk lists. -/
def blankCountry : Country :=
  { countryID := "", name := "", description := "", currency := "", capital := "",
    region := "", subregion := "", area := 0, population := 0, flag_url := "" }

/-- A 25-element collection, the filtered set of the pagination example. -/
def demo25 : List Country := List.replicate 25 blankCountry

/-- A concrete validated payload for update/create fixtures. -/
def patch0 : RecordInput :=
  { name := "Gamma", description := "third", currency := "JPY", capital := "Gcity",
    region := "Asia", subregion := "South", area := 300, population := 70,
    flag_url := "g.png" }

/-! ### Helper lemmas about the relation store -/

/-- If the `(countryID, neighborId)` pair is absent, `addNeighbor` appends
it. -/
theorem addNeighbor_of_absent {rel : List (String × String)} {cid nid : String}
    (h : fetchNeighbor rel cid nid = none) :
    addNeighbor rel cid nid = rel ++ [(cid, nid)] := by
  have hany : rel.any (fun p => p.1 == cid && p.2 == nid) = false := by
    rw [List.any_eq_false]
    intro p hp
    have := List.find?_eq_none.mp h p hp
    simpa using this
  simp [addNeighbor, hany]

/-- A pair reported absent by `fetchNeighbor` is not a member of the
relation list. -/
theorem not_mem_of_fetchNeighbor_none {rel : List (String × String)} {cid nid : String}
    (h : fetchNeighbor rel cid nid = none) : (cid, nid) ∉ rel := by
  intro hmem
  have := List.find?_eq_none.mp h (cid, nid) hmem
  simp at this

/-- After appending the pair, `fetchNeighbor` finds it. -/
theorem fetchNeighbor_append_self {rel : List (String × String)} {cid nid : String}
    (h : fetchNeighbor rel cid nid = none) :
    fetchNeighbor (rel ++ [(cid, nid)]) cid nid = some (cid, nid) := by
  unfold fetchNeighbor at h ⊢
  rw [List.find?_append, h]
  simp

/-- Membership in the relation query result is membership of the pair in
the relation store. -/
theorem mem_fetchNeighborsByCountryId (db : DBState) (cid nid : String) :
    nid ∈ fetchNeighborsByCountryId db cid ↔ (cid, nid) ∈ db.relations := by
  unfold fetchNeighborsByCountryId
  constructor
  · intro h
    obtain ⟨⟨p1, p2⟩, hp, h2⟩ := List.mem_map.mp h
    obtain ⟨hmem, hfil⟩ := List.mem_filter.mp hp
    have h1 : p1 = cid := by simpa using hfil
    simp only at h2
    rw [← h1, ← h2]
    exact hmem
  · intro h
    exact List.mem_map.mpr ⟨(cid, nid), List.mem_filter.mpr ⟨h, by simp⟩, rfl⟩

/-- Each loop iteration contributes exactly one element, to `added` or to
`errors`. -/
theorem addNeighborsLoop_length (cid : String) (valid : List String) :
    ∀ (ids : List String) (rel : List (String × String)) (added errors : List String),
      (addNeighborsLoop cid valid ids rel added errors).1.length +
        (addNeighborsLoop cid valid ids rel added errors).2.1.length =
      added.length + errors.length + ids.length := by
  intro ids
  induction ids with
  | nil => intro rel added errors; simp [addNeighborsLoop]
  | cons nid rest ih =>
    intro rel added errors
    simp only [addNeighborsLoop]
    by_cases hmem : valid.contains nid
    · rw [if_pos hmem]
      cases hf : fetchNeighbor rel cid nid with
      | some p => rw [ih]; simp; omega
      | none => rw [ih]; simp; omega
    · rw [if_neg hmem, ih]; simp; omega

/-- `l.contains` agrees with membership (the `includes` check of the
source). -/
theorem contains_eq_true_of_mem {l : List String} {a : String} (h : a ∈ l) :
    l.contains a = true :=
  List.elem_iff.mpr h

/-- `l.contains` is false off the list. -/
theorem contains_eq_false_of_not_mem {l : List String} {a : String} (h : a ∉ l) :
    l.contains a = false := by
  cases hco : l.contains a with
  | false => rfl
  | true => exact absurd (List.elem_iff.mp hco) h

/-- One-element `addNeighbors` call on an existing country with a valid,
not-yet-related neighbor id: the id is added, no errors, and the pair is
appended to the relation store. -/
theorem addNeighbors_single_added (db : DBState) (cid x : String) (c : Country)
    (hc : fetchCountryById db cid = some c)
    (hx : x ∈ fetchAllCountryIds db)
    (hnone : fetchNeighbor db.relations cid x = none) :
    addNeighbors db cid [x] =
      ({ statusCode := 200, message := "Neighbors added successfully",
         neighbors := [x], errors := [] },
       { db with relations := db.relations ++ [(cid, x)] }) := by
  simp [addNeighbors, hc, addNeighborsLoop, contains_eq_true_of_mem hx, hx, hnone,
    addNeighbor_of_absent hnone]

/-- One-element `addNeighbors` call on an existing country with a valid
neighbor id whose pair is already related: one duplicate error, empty added
list, status 400, store unchanged. -/
theorem addNeighbors_single_duplicate (db : DBState) (cid x : String) (c : Country)
    (p : String × String)
    (hc : fetchCountryById db cid = some c)
    (hx : x ∈ fetchAllCountryIds db)
    (hp : fetchNeighbor db.relations cid x = some p) :
    addNeighbors db cid [x] =
      ({ statusCode := 400, message := "Failed to add neighbors",
         neighbors := [], errors := [duplicateNeighborMsg x] }, db) := by
  simp [addNeighbors, hc, addNeighborsLoop, contains_eq_true_of_mem hx, hx, hp]

/-- C1: adding the same valid neighbor twice in succession: the first call
records it as added and appends the pair; the second call reports the
already-exists error with an empty added list, leaves the relation store
unchanged, and the pair ends up stored exactly once. -/
theorem addNeighbors_twice_idempotent (db : DBState) (cid x : String)
    (hc : (fetchCountryById db cid).isSome)
    (hx : x ∈ fetchAllCountryIds db)
    (hnone : fetchNeighbor db.relations cid x = none) :
    (addNeighbors db cid [x]).1.neighbors = [x] ∧
    (addNeighbors db cid [x]).2.relations = db.relations ++ [(cid, x)] ∧
    (addNeighbors (addNeighbors db cid [x]).2 cid [x]).1.neighbors = [] ∧
    (addNeighbors (addNeighbors db cid [x]).2 cid [x]).1.errors =
      [duplicateNeighborMsg x] ∧
    (addNeighbors (addNeighbors db cid [x]).2 cid [x]).2.relations =
      (addNeighbors db cid [x]).2.relations ∧
    ((addNeighbors (addNeighbors db cid [x]).2 cid [x]).2.relations).count (cid, x) = 1 := by
  obtain ⟨c, hcc⟩ := Option.isSome_iff_exists.mp hc
  have h1 := addNeighbors_single_added db cid x c hcc hx hnone
  have hc1 : fetchCountryById { db with relations := db.relations ++ [(cid, x)] } cid
      = some c := hcc
  have hx1 : x ∈ fetchAllCountryIds { db with relations := db.relations ++ [(cid, x)] } := hx
  have h2 := addNeighbors_single_duplicate
    { db with relations := db.relations ++ [(cid, x)] } cid x c (cid, x) hc1 hx1
    (fetchNeighbor_append_self hnone)
  rw [h1]
  dsimp only
  rw [h2]
  have hcount : (db.relations ++ [(cid, x)]).count (cid, x) = 1 := by
    rw [List.count_append,
      List.count_eq_zero.mpr (not_mem_of_fetchNeighbor_none hnone)]
    simp [List.count_singleton]
  exact ⟨rfl, rfl, rfl, rfl, rfl, hcount⟩

/-- C2: on an existing country the call reports 400 exactly when nothing
was added and 200 exactly when something was; with a single neighbor id
absent from the country collection it reports an empty added list, exactly
the one invalid-id error, and status 400. -/
theorem addNeighbors_result_policy (db : DBState) (cid x : String) (ids : List String)
    (hc : (fetchCountryById db cid).isSome)
    (hx : x ∉ fetchAllCountryIds db) :
    ((addNeighbors db cid ids).1.statusCode = 400 ↔
      (addNeighbors db cid ids).1.neighbors = []) ∧
    ((addNeighbors db cid ids).1.statusCode = 200 ↔
      (addNeighbors db cid ids).1.neighbors ≠ []) ∧
    ((addNeighbors db cid [x]).1.neighbors = [] ∧
     (addNeighbors db cid [x]).1.errors = [invalidNeighborMsg x] ∧
     (addNeighbors db cid [x]).1.statusCode = 400) := by
  obtain ⟨c, hcc⟩ := Option.isSome_iff_exists.mp hc
  refine ⟨?_, ?_, ?_⟩
  · by_cases h0 :
      (addNeighborsLoop cid (fetchAllCountryIds db) ids db.relations [] []).1.length = 0
    · simp [addNeighbors, hcc, h0]
    · simp [addNeighbors, hcc, h0]
      exact fun he => h0 (by simp [he])
  · by_cases h0 :
      (addNeighborsLoop cid (fetchAllCountryIds db) ids db.relations [] []).1.length = 0
    · simp [addNeighbors, hcc, h0]
    · simp [addNeighbors, hcc, h0]
      exact fun he => h0 (by simp [he])
  · simp [addNeighbors, hcc, addNeighborsLoop, contains_eq_false_of_not_mem hx, hx]

/-- C9: a successful `addNeighbors(A, [B])` inserts only the directed pair
`(A, B)`; the reverse pair `(B, A)` is present afterwards only if it was
present before, so the relation query for `B` lists `A` exactly when
`(B, A)` was added separately. -/
theorem addNeighbors_directed_edge (db : DBState) (A B : String)
    (hA : (fetchCountryById db A).isSome)
    (hB : B ∈ fetchAllCountryIds db)
    (hAB : A ≠ B)
    (hnone : fetchNeighbor db.relations A B = none) :
    (addNeighbors db A [B]).2.relations = db.relations ++ [(A, B)] ∧
    ((B, A) ∈ (addNeighbors db A [B]).2.relations ↔ (B, A) ∈ db.relations) ∧
    (A ∈ fetchNeighborsByCountryId (addNeighbors db A [B]).2 B ↔
      (B, A) ∈ db.relations) := by
  obtain ⟨c, hcc⟩ := Option.isSome_iff_exists.mp hA
  have h1 := addNeighbors_single_added db A B c hcc hB hnone
  rw [h1]
  dsimp only
  have hBA : B ≠ A := Ne.symm hAB
  refine ⟨rfl, ?_, ?_⟩
  · simp [hBA]
  · rw [mem_fetchNeighborsByCountryId]
    dsimp only
    simp [hBA]

/-- C10: on an existing country, every input neighbor id lands in exactly
one of the two output lists, so their lengths sum to the input length. -/
theorem addNeighbors_outcome_partition (db : DBState) (cid : String) (ids : List String)
    (hc : (fetchCountryById db cid).isSome) :
    (addNeighbors db cid ids).1.neighbors.length +
      (addNeighbors db cid ids).1.errors.length = ids.length := by
  obtain ⟨c, hcc⟩ := Option.isSome_iff_exists.mp hc
  have hlen := addNeighborsLoop_length cid (fetchAllCountryIds db) ids db.relations [] []
  simp only [List.length_nil] at hlen
  by_cases h0 :
    (addNeighborsLoop cid (fetchAllCountryIds db) ids db.relations [] []).1.length = 0
  · simp [addNeighbors, hcc, h0]
    omega
  · simp [addNeighbors, hcc, h0]
    omega

/-! ### Pagination lemmas -/

/-- Dropping after taking is taking after dropping. -/
theorem take_drop_window (s e : Nat) (l : List Country) :
    (l.take e).drop s = (l.drop s).take (e - s) :=
  List.drop_take ..

/-- Slice-index normalization at a non-negative index. -/
theorem jsSliceIndex_nonneg (len : Nat) (s : Int) (hs : 0 ≤ s) :
    jsSliceIndex len (some s) = min s.toNat len := by
  simp only [jsSliceIndex, jsToIntOrZero]
  rw [if_neg (by omega)]

/-- For a non-negative start and length, the JS slice
`items.slice(skip, skip + limit)` is the drop/take window. -/
theorem jsSlice_window (items : List Country) (s l : Int) (hs : 0 ≤ s) (hl : 0 ≤ l) :
    jsSlice items (some s) (some (s + l)) = (items.drop s.toNat).take l.toNat := by
  have hadd : (s + l).toNat = s.toNat + l.toNat := by omega
  unfold jsSlice
  rw [jsSliceIndex_nonneg _ _ hs, jsSliceIndex_nonneg _ _ (by omega), hadd,
    take_drop_window]
  rcases le_or_lt s.toNat items.length with hle | hgt
  · rw [Nat.min_eq_left hle, List.take_eq_take, List.length_drop]
    omega
  · have h1 := Nat.min_eq_right (show items.length ≤ s.toNat by omega)
    have h2 := Nat.min_eq_right (show items.length ≤ s.toNat + l.toNat by omega)
    rw [h1, h2, List.drop_eq_nil_of_le (le_refl items.length),
      List.drop_eq_nil_of_le (by omega : items.length ≤ s.toNat)]
    simp

/-- `(n + k - 1) / k` is the ceiling of `n / k`: characterizing bounds. -/
theorem ceil_div_bounds (n k : Nat) (hk : 0 < k) :
    n ≤ ((n + k - 1) / k) * k ∧ ((n + k - 1) / k) * k < n + k := by
  obtain ⟨M, hM⟩ : ∃ M, ((n + k - 1) / k) * k = M := ⟨_, rfl⟩
  have key := Nat.div_add_mod (n + k - 1) k
  have hm := Nat.mod_lt (n + k - 1) hk
  rw [hM]
  rw [mul_comm] at hM
  rw [hM] at key
  omega

/-- `jsCeilOfDiv` at a positive divisor. -/
theorem jsCeilOfDiv_pos (total : Nat) (l : Int) (hl : 0 < l) :
    jsCeilOfDiv total (some l) =
      some (((total + l.toNat - 1) / l.toNat : Nat) : Int) := by
  simp only [jsCeilOfDiv]
  rw [if_neg (by omega)]

/-- C7: for positive `page` and `limit`, the envelope's `total` is the size
of the (post-search, pre-pagination) set, `pages` is the ceiling of
`total / limit` (characterized by its bounds), the slice is the window of
length at most `limit` starting at `(page-1)*limit`, `has_next` holds
exactly when `page < pages`, `has_prev` exactly when `page > 1`; and on the
25-item set with `page = 2`, `limit = 10` the envelope has 10 items,
`has_next`, `has_prev`, and 3 pages. -/
theorem paginate_envelope_correct (items : List Country) (p l : Int)
    (hp : 0 < p) (hl : 0 < l) :
    (paginateEnvelope items (some p) (some l)).total = items.length ∧
    (paginateEnvelope items (some p) (some l)).list =
      (items.drop ((p - 1) * l).toNat).take l.toNat ∧
    (paginateEnvelope items (some p) (some l)).list.length ≤ l.toNat ∧
    ((paginateEnvelope items (some p) (some l)).has_prev = true ↔ 1 < p) ∧
    (∃ q : Nat, (paginateEnvelope items (some p) (some l)).pages = some (q : Int) ∧
      items.length ≤ q * l.toNat ∧ q * l.toNat < items.length + l.toNat ∧
      ((paginateEnvelope items (some p) (some l)).has_next = true ↔ p < (q : Int))) ∧
    ((paginateEnvelope demo25 (some 2) (some 10)).list.length = 10 ∧
     (paginateEnvelope demo25 (some 2) (some 10)).has_next = true ∧
     (paginateEnvelope demo25 (some 2) (some 10)).has_prev = true ∧
     (paginateEnvelope demo25 (some 2) (some 10)).pages = some 3) := by
  have hs : 0 ≤ (p - 1) * l := mul_nonneg (by omega) (by omega)
  have hlN : 0 < l.toNat := by omega
  have hskip : jsMul (jsSub (some p) (some 1)) (some l) = some ((p - 1) * l) := by
    simp [jsMul, jsSub]
  have hstop : jsAdd (some ((p - 1) * l)) (some l) = some ((p - 1) * l + l) := by
    simp [jsAdd]
  have hwin : jsSlice items (some ((p - 1) * l)) (some ((p - 1) * l + l)) =
      (items.drop ((p - 1) * l).toNat).take l.toNat :=
    jsSlice_window items _ l hs hl.le
  have hlist : (paginateEnvelope items (some p) (some l)).list =
      (items.drop ((p - 1) * l).toNat).take l.toNat := by
    show jsSlice items (jsMul (jsSub (some p) (some 1)) (some l))
        (jsAdd (jsMul (jsSub (some p) (some 1)) (some l)) (some l)) = _
    rw [hskip, hstop, hwin]
  have hbounds := ceil_div_bounds items.length l.toNat hlN
  refine ⟨rfl, hlist, ?_, ?_, ?_, by decide⟩
  · rw [hlist, List.length_take]
    omega
  · show jsLt (some 1) (some p) = true ↔ 1 < p
    simp [jsLt]
  · refine ⟨(items.length + l.toNat - 1) / l.toNat, ?_, hbounds.1, hbounds.2, ?_⟩
    · show jsCeilOfDiv items.length (some l) = _
      exact jsCeilOfDiv_pos items.length l hl
    · show jsLt (some p) (jsCeilOfDiv items.length (some l)) = true ↔ _
      rw [jsCeilOfDiv_pos items.length l hl]
      simp [jsLt]

/-! ### Claim theorems on concrete stores, and witnesses -/

/-- C3: at the concrete failing input (`update` of id `"x"` against the
empty collection with a valid payload), the handler does not fail with
NotFound: it answers 200 and writes the patched record into the previously
empty collection. -/
theorem updateCountry_missing_id_writes :
    fetchCountryById emptyDB "x" = none ∧
    (updateCountry emptyDB "x" patch0).1.statusCode = 200 ∧
    (updateCountry emptyDB "x" patch0).1.statusCode ≠ 404 ∧
    (updateCountry emptyDB "x" patch0).2.countries = [patch0.withId "x"] ∧
    (updateCountry emptyDB "x" patch0).2 ≠ emptyDB := by
  refine ⟨rfl, rfl, by decide, rfl, ?_⟩
  intro h
  exact absurd (congrArg (fun db => db.countries) h) (by decide)

/-- C4: at the concrete failing input (`get` of id `"x"` against the empty
collection), the handler answers 200 with an `undefined` body instead of
404; on a present id it answers 200 with the stored record, as claimed. -/
theorem getCountry_missing_id_returns_200 :
    fetchCountryById emptyDB "x" = none ∧
    (getCountry emptyDB "x").statusCode = 200 ∧
    (getCountry emptyDB "x").statusCode ≠ 404 ∧
    (getCountry demoDB "A").statusCode = 200 ∧
    (getCountry demoDB "A").body = some countryA := by
  refine ⟨rfl, rfl, by decide, rfl, by decide⟩

/-- C5: deleting the existing record `"A"` succeeds (204, empty body,
record removed), but the second delete of the now-absent id also answers
204 — never the claimed 404. -/
theorem deleteCountry_twice_returns_204 :
    (deleteCountry demoDB "A").1.statusCode = 204 ∧
    (deleteCountry demoDB "A").1.body = "" ∧
    fetchCountryById (deleteCountry demoDB "A").2 "A" = none ∧
    (deleteCountry (deleteCountry demoDB "A").2 "A").1.statusCode = 204 ∧
    (deleteCountry (deleteCountry demoDB "A").2 "A").1.statusCode ≠ 404 := by
  refine ⟨rfl, rfl, by decide, rfl, by decide⟩

/-- C6 counterexample: at the concrete non-array body `"not an array"`,
`createCountry` answers 500, not the claimed 400. -/
theorem createCountry_non_array_counterexample :
    (createCountry demoDB (RequestBody.str "not an array") (fun _ => "fresh")).1.statusCode
      = 500 ∧
    (createCountry demoDB (RequestBody.str "not an array") (fun _ => "fresh")).1.statusCode
      ≠ 400 := by
  exact ⟨rfl, by decide⟩

/-- C6 amended: for every non-array body, `createCountry` fails with the
invalid-shape error, surfaced as a 500 server-error response carrying the
message `"Request body should be an array of countries."`, and writes
nothing to the store. -/
theorem createCountry_non_array_behavior (db : DBState) (body : RequestBody)
    (fresh : Nat → String) (h : body.isArray = false) :
    (createCountry db body fresh).1.statusCode = 500 ∧
    (createCountry db body fresh).1.error =
      some "Request body should be an array of countries." ∧
    (createCountry db body fresh).2 = db := by
  cases body with
  | arr records => simp [RequestBody.isArray] at h
  | obj => exact ⟨rfl, rfl, rfl⟩
  | str s => exact ⟨rfl, rfl, rfl⟩
  | num n => exact ⟨rfl, rfl, rfl⟩
  | bool b => exact ⟨rfl, rfl, rfl⟩
  | null => exact ⟨rfl, rfl, rfl⟩

/-- Witness for the amended C6 statement at a concrete non-array body. -/
theorem createCountry_non_array_behavior_witness :
    (RequestBody.str "oops").isArray = false ∧
    ((createCountry demoDB (RequestBody.str "oops") (fun _ => "id")).1.statusCode = 500 ∧
     (createCountry demoDB (RequestBody.str "oops") (fun _ => "id")).1.error =
       some "Request body should be an array of countries." ∧
     (createCountry demoDB (RequestBody.str "oops") (fun _ => "id")).2 = demoDB) :=
  ⟨rfl, createCountry_non_array_behavior demoDB (RequestBody.str "oops") (fun _ => "id") rfl⟩

/-- C8: at the concrete failing input `page = "abc"` (with defaulted
`limit`, `sort_by`, `search`), the parse yields `NaN`, yet the handler
answers 200 with a degenerate empty window and false navigation flags —
never the claimed 400. -/
theorem paginated_non_numeric_page_returns_200 :
    jsParseInt "abc" = none ∧
    (getAllCountriesPaginated demoDB (some "abc") none none none).statusCode = 200 ∧
    (getAllCountriesPaginated demoDB (some "abc") none none none).statusCode ≠ 400 ∧
    (getAllCountriesPaginated demoDB (some "abc") none none none).data.list = [] ∧
    (getAllCountriesPaginated demoDB (some "abc") none none none).data.has_next = false ∧
    (getAllCountriesPaginated demoDB (some "abc") none none none).data.has_prev = false := by
  refine ⟨rfl, rfl, by decide, rfl, rfl, rfl⟩

/-- Witness for C1 at the concrete store with countries `"A"`, `"B"` and no
relations. -/
theorem addNeighbors_twice_idempotent_witness :
    (fetchCountryById demoDB "A").isSome ∧
    "B" ∈ fetchAllCountryIds demoDB ∧
    fetchNeighbor demoDB.relations "A" "B" = none ∧
    ((addNeighbors (addNeighbors demoDB "A" ["B"]).2 "A" ["B"]).2.relations).count
      ("A", "B") = 1 :=
  ⟨by decide, by decide, rfl,
   (addNeighbors_twice_idempotent demoDB "A" "B" (by decide) (by decide) rfl).2.2.2.2.2⟩

/-- Witness for C2 at the concrete store, with the absent neighbor id
`"Z"`. -/
theorem addNeighbors_result_policy_witness :
    (fetchCountryById demoDB "A").isSome ∧
    "Z" ∉ fetchAllCountryIds demoDB ∧
    ((addNeighbors demoDB "A" ["Z"]).1.neighbors = [] ∧
     (addNeighbors demoDB "A" ["Z"]).1.errors = [invalidNeighborMsg "Z"] ∧
     (addNeighbors demoDB "A" ["Z"]).1.statusCode = 400) :=
  ⟨by decide, by decide,
   (addNeighbors_result_policy demoDB "A" "Z" ["B"] (by decide) (by decide)).2.2⟩

/-- Witness for C9 at the concrete store: adding `B` as neighbor of `A`
does not make `A` a neighbor of `B`. -/
theorem addNeighbors_directed_edge_witness :
    (fetchCountryById demoDB "A").isSome ∧
    "B" ∈ fetchAllCountryIds demoDB ∧
    "A" ≠ "B" ∧
    ("A" ∈ fetchNeighborsByCountryId (addNeighbors demoDB "A" ["B"]).2 "B" ↔
      ("B", "A") ∈ demoDB.relations) :=
  ⟨by decide, by decide, by decide,
   (addNeighbors_directed_edge demoDB "A" "B" (by decide) (by decide) (by decide) rfl).2.2⟩

/-- Witness for C10 at a concrete three-element request mixing a valid id,
an invalid id and a duplicate. -/
theorem addNeighbors_outcome_partition_witness :
    (fetchCountryById demoDB "A").isSome ∧
    (addNeighbors demoDB "A" ["B", "Z", "B"]).1.neighbors.length +
      (addNeighbors demoDB "A" ["B", "Z", "B"]).1.errors.length = 3 :=
  ⟨by decide, addNeighbors_outcome_partition demoDB "A" ["B", "Z", "B"] (by decide)⟩

/-- Witness for C7 at the 25-item set with `page = 2`, `limit = 10`. -/
theorem paginate_envelope_correct_witness :
    (0 : Int) < 2 ∧ (0 : Int) < 10 ∧
    ((paginateEnvelope demo25 (some 2) (some 10)).list.length = 10 ∧
     (paginateEnvelope demo25 (some 2) (some 10)).has_next = true ∧
     (paginateEnvelope demo25 (some 2) (some 10)).has_prev = true ∧
     (paginateEnvelope demo25 (some 2) (some 10)).pages = some 3) :=
  ⟨by decide, by decide,
   (paginate_envelope_correct demo25 2 10 (by decide) (by decide)).2.2.2.2.2⟩

end CountryApi
